import Mathlib

/-!
Verification of the kritis policy-evaluation and attestation-trust engine.

This file gives a shallow embedding, in Lean 4, of the parts of the kritis
source that the verified claims are about:

* `pkg/kritis/crd/vulnzsigningpolicy/vulnzsigningpolicy.go`
  (`ValidateVulnzSigningPolicy`, `severityWithinThreshold`,
  `makeCVEAllowlistMap`),
* `pkg/kritis/signer` (`Signer.SignImage`, `isAttestationAlreadyExist`),
* `pkg/kritis/cryptolib/verifier.go` (`NewPublicKey`, `extractPgpKeyID`,
  `extractPkixKeyID`),
* the review engine (`ReviewGAP`, `ReviewISP`), whose source file is not
  available here and is therefore modelled from the design document and its
  unit tests.

External collaborators (metadata client, authority resolver, PGP keyring
parsing, image-reference validation, URI parsing, signature verification) are
modelled as explicit function parameters, mirroring the Go code's injected
interfaces.  Machine-level details (bytes) are modelled as `Nat`s.
-/

namespace Kritis

/-! ## Constants and external severity vocabulary

`constants.BlockAll`, `constants.AllowAll` and `constants.Critical` come from
`pkg/kritis/constants` (not in the provided sources; values are the documented
sentinel strings).  `Severity_value` is the generated grafeas
`vulnerability.Severity_value` proto enum map from
`google.golang.org/genproto/googleapis/devtools/containeranalysis/v1beta1/vulnerability`.
-/

/-- Modelled from the spec: `constants.BlockAll`, the sentinel threshold that
blocks every vulnerability. -/
def BlockAll : String := "BLOCK_ALL"

/-- Modelled from the spec: `constants.AllowAll`, the sentinel threshold that
passes every vulnerability. -/
def AllowAll : String := "ALLOW_ALL"

/-- Modelled from the spec: `constants.Critical`, the default
`maximumFixableSeverity`. -/
def Critical : String := "CRITICAL"

/-- The grafeas proto enum map `vulnerability.Severity_value`: recognized
severity strings and their numeric rank.  `none` means the string is not in
the recognized severity vocabulary. -/
def Severity_value (s : String) : Option Int :=
  if s = "SEVERITY_UNSPECIFIED" then some 0
  else if s = "MINIMAL" then some 1
  else if s = "LOW" then some 2
  else if s = "MEDIUM" then some 3
  else if s = "HIGH" then some 4
  else if s = "CRITICAL" then some 5
  else none

/-! ## Data model (`pkg/kritis/metadata`, `pkg/kritis/policy`, v1beta1 CRDs) -/

/-- `metadata.Vulnerability`: a found vulnerability, read-only input. -/
structure Vulnerability where
  cve : String
  severity : String
  hasFixAvailable : Bool
deriving Repr, DecidableEq

/-- The violation types used by the vulnerability signing policy
(`policy.UnqualifiedImageViolation`, `policy.FixUnavailableViolation`,
`policy.SeverityViolation`). -/
inductive ViolationType where
  | unqualifiedImage
  | fixUnavailable
  | severity
deriving Repr, DecidableEq

/-- Modelled from the spec: the human-readable reason string attached to an
`UnqualifiedImage` violation (`UnqualifiedImageReason`; the formatting helper
is not in the provided sources, only its call site). -/
def UnqualifiedImageReason (image : String) : String :=
  "image " ++ image ++ " is not fully qualified"

/-- Modelled from the spec: reason for an unfixable-severity violation
(`UnfixableSeverityViolationReason`, call site only in the sources). -/
def UnfixableSeverityViolationReason (image : String) (v : Vulnerability) : String :=
  "found unfixable CVE " ++ v.cve ++ " in " ++ image

/-- Modelled from the spec: reason for a fixable-severity violation
(`FixableSeverityViolationReason`, call site only in the sources). -/
def FixableSeverityViolationReason (image : String) (v : Vulnerability) : String :=
  "found fixable CVE " ++ v.cve ++ " in " ++ image

/-- `vulnzsigningpolicy.Violation`: violation record with its type, the
triggering vulnerability (absent for unqualified-image violations) and a
descriptive reason. -/
structure Violation where
  vulnerability : Option Vulnerability
  vType : ViolationType
  reason : String
deriving Repr, DecidableEq

/-- `v1beta1.ImageVulnerabilityRequirements`: the inline vulnerability policy
of a `VulnzSigningPolicy`. -/
structure ImageVulnerabilityRequirements where
  maximumFixableSeverity : String
  maximumUnfixableSeverity : String
  allowlistCVEs : List String
deriving Repr, DecidableEq

/-- `v1beta1.VulnzSigningPolicy` (spec part only; object metadata is not
consulted by the evaluator). -/
structure VulnzSigningPolicy where
  imageVulnerabilityRequirements : ImageVulnerabilityRequirements
deriving Repr, DecidableEq

/-! ## Vulnerability policy evaluator
(`pkg/kritis/crd/vulnzsigningpolicy/vulnzsigningpolicy.go`) -/

/-- `severityWithinThreshold(maxSeverity, severity)`: sentinel thresholds
first (`BLOCK_ALL` fails everything, `ALLOW_ALL` passes everything), then
both strings must be in the recognized vocabulary, and the vulnerability
passes iff its rank is at most the threshold's rank. -/
def severityWithinThreshold (maxSeverity severity : String) : Except String Bool :=
  if maxSeverity = BlockAll then .ok false
  else if maxSeverity = AllowAll then .ok true
  else
    match Severity_value maxSeverity with
    | none => .error ("invalid max severity level: " ++ maxSeverity)
    | some maxValue =>
      match Severity_value severity with
      | none => .error ("invalid severity level: " ++ severity)
      | some sevValue => .ok (decide (sevValue ≤ maxValue))

/-- `makeCVEAllowlistMap`: CVE-name membership built from
`AllowlistCVEs` (a Go `map[string]bool`; membership is what is consulted). -/
def makeCVEAllowlistMap (vsp : VulnzSigningPolicy) (cve : String) : Bool :=
  vsp.imageVulnerabilityRequirements.allowlistCVEs.contains cve

/-- The per-vulnerability loop body of `ValidateVulnzSigningPolicy`:
skip allowlisted CVEs; pick the threshold by `HasFixAvailable`; a threshold
error aborts with the violations accumulated so far; a failed threshold check
appends a violation.  Violations accumulate in input order. -/
def validateVulnzLoop (vsp : VulnzSigningPolicy) (image : String)
    (maxSev maxNoFixSev : String) :
    List Vulnerability → List Violation × Option String
  | [] => ([], none)
  | v :: rest =>
    if makeCVEAllowlistMap vsp v.cve then
      validateVulnzLoop vsp image maxSev maxNoFixSev rest
    else if !v.hasFixAvailable then
      match severityWithinThreshold maxNoFixSev v.severity with
      | .error e => ([], some e)
      | .ok true => validateVulnzLoop vsp image maxSev maxNoFixSev rest
      | .ok false =>
        let r := validateVulnzLoop vsp image maxSev maxNoFixSev rest
        (⟨some v, .fixUnavailable, UnfixableSeverityViolationReason image v⟩ :: r.1, r.2)
    else
      match severityWithinThreshold maxSev v.severity with
      | .error e => ([], some e)
      | .ok true => validateVulnzLoop vsp image maxSev maxNoFixSev rest
      | .ok false =>
        let r := validateVulnzLoop vsp image maxSev maxNoFixSev rest
        (⟨some v, .severity, FixableSeverityViolationReason image v⟩ :: r.1, r.2)

/-- `ValidateVulnzSigningPolicy(vsp, image, vulnz)`.
`fullyQualifiedImage` is the injected `resolve.FullyQualifiedImage` check
(digest-pinned reference; external to this package).  An unqualified image
short-circuits to a single `UnqualifiedImage` violation with no error;
otherwise the two thresholds are resolved (fixable defaults to `CRITICAL`,
unfixable to `ALLOW_ALL`) and each vulnerability is evaluated in order. -/
def ValidateVulnzSigningPolicy (fullyQualifiedImage : String → Bool)
    (vsp : VulnzSigningPolicy) (image : String) (vulnz : List Vulnerability) :
    List Violation × Option String :=
  if !fullyQualifiedImage image then
    ([⟨none, .unqualifiedImage, UnqualifiedImageReason image⟩], none)
  else
    let maxSev :=
      if vsp.imageVulnerabilityRequirements.maximumFixableSeverity = "" then Critical
      else vsp.imageVulnerabilityRequirements.maximumFixableSeverity
    let maxNoFixSev :=
      if vsp.imageVulnerabilityRequirements.maximumUnfixableSeverity = "" then AllowAll
      else vsp.imageVulnerabilityRequirements.maximumUnfixableSeverity
    validateVulnzLoop vsp image maxSev maxNoFixSev vulnz

/-! ## Attestation codec & public keys (`pkg/kritis/cryptolib/verifier.go`) -/

/-- `cryptolib.KeyType`: Pgp, Pkix or Jwt; `unknown` stands for any other
value of the Go string-typed enum (the `default` branch of the switch). -/
inductive KeyType where
  | pgp
  | pkix
  | jwt
  | unknown
deriving Repr, DecidableEq

/-- `cryptolib.SignatureAlgorithm` (opaque to the claims verified here; only
carried through). -/
structure SignatureAlgorithm where
  algId : Nat
deriving Repr, DecidableEq

/-- `cryptolib.PublicKey`: key type, signature algorithm, raw key material
(bytes as `Nat`s) and ID. -/
structure PublicKey where
  keyType : KeyType
  signatureAlgorithm : SignatureAlgorithm
  keyData : List Nat
  id : String
deriving Repr, DecidableEq

/-- An entity of an OpenPGP keyring, reduced to what `extractPgpKeyID`
consults: the primary key's 20-byte V4 fingerprint. -/
structure PgpEntity where
  primaryKeyFingerprint : List Nat
deriving Repr, DecidableEq

/-- One uppercase hexadecimal digit (`0`–`9`, `A`–`F`). -/
def hexDigitUpper (n : Nat) : Char :=
  if n < 10 then Char.ofNat (48 + n) else Char.ofNat (55 + n)

/-- A byte rendered as two uppercase hexadecimal digits. -/
def byteToHexUpper (b : Nat) : String :=
  String.mk [hexDigitUpper (b / 16 % 16), hexDigitUpper (b % 16)]

/-- Go's `fmt.Sprintf("%X", bytes)`: the bytes rendered as uppercase
hexadecimal. -/
def upperHex (bs : List Nat) : String :=
  String.join (bs.map byteToHexUpper)

/-- `extractPgpKeyID(keyData)`.  `readArmoredKeyRing` is the injected
`openpgp.ReadArmoredKeyRing` (external library): it parses the armored key
material into a keyring.  The keyring must contain exactly one key, whose
fingerprint is rendered as uppercase hex (`fmt.Sprintf("%X", ...)`). -/
def extractPgpKeyID (readArmoredKeyRing : List Nat → Except String (List PgpEntity))
    (keyData : List Nat) : Except String String :=
  match readArmoredKeyRing keyData with
  | .error e => .error ("error reading armored public key: " ++ e)
  | .ok keyring =>
    if keyring.length ≠ 1 then
      .error ("expected 1 public key, got " ++ toString keyring.length)
    else
      .ok (upperHex ((keyring.headD ⟨[]⟩).primaryKeyFingerprint))

/-- `extractPkixKeyID(keyData, keyID)`.  `parseRequestURI` is the injected
`url.ParseRequestURI` success predicate (external library).  A key ID
containing `:` must parse as a URI; the caller-supplied ID is returned
unchanged. -/
def extractPkixKeyID (parseRequestURI : String → Bool)
    (_keyData : List Nat) (keyID : String) : Except String String :=
  if (keyID.toList.contains ':') && !parseRequestURI keyID then
    .error ("keyID " ++ keyID ++ " not formatted as StringOrURI")
  else
    .ok keyID

/-- `cryptolib.NewPublicKey(keyType, signatureAlgorithm, keyData, keyID)`:
for PGP the ID is derived from the keyring fingerprint (the caller-supplied
`keyID` is not consulted); for PKIX/JWT the caller's ID is validated and kept;
any other key type is an error. -/
def NewPublicKey (readArmoredKeyRing : List Nat → Except String (List PgpEntity))
    (parseRequestURI : String → Bool)
    (keyType : KeyType) (signatureAlgorithm : SignatureAlgorithm)
    (keyData : List Nat) (keyID : String) : Except String PublicKey :=
  match keyType with
  | .pgp =>
    match extractPgpKeyID readArmoredKeyRing keyData with
    | .error e => .error e
    | .ok newKeyID => .ok ⟨.pgp, signatureAlgorithm, keyData, newKeyID⟩
  | .pkix =>
    match extractPkixKeyID parseRequestURI keyData keyID with
    | .error e => .error e
    | .ok newKeyID => .ok ⟨.pkix, signatureAlgorithm, keyData, newKeyID⟩
  | .jwt =>
    match extractPkixKeyID parseRequestURI keyData keyID with
    | .error e => .error e
    | .ok newKeyID => .ok ⟨.jwt, signatureAlgorithm, keyData, newKeyID⟩
  | .unknown => .error "invalid key type"

/-! ## Attestation signer (`pkg/kritis/signer`, `signer.go`) -/

/-- `attestlib.Attestation`: public key ID, signature and serialized payload
(bytes as `Nat`s). -/
structure Attestation where
  publicKeyID : String
  signature : List Nat
  serializedPayload : List Nat
deriving Repr, DecidableEq

/-- The side-effecting metadata/signing calls `Signer.SignImage` can make,
in order of occurrence. -/
inductive SignerCall where
  | deleteOccurrence
  | createAttestation
  | getOrCreateNote
  | uploadOccurrence
deriving Repr, DecidableEq

/-- The injected collaborators of a `signer.Signer`, fixed for one
`SignImage(image)` call: the metadata client's responses for this image and
authority, and the signing capability's response.  `attestations` is the
existence query (`client.Attestations`); `deleteResult`/`uploadResult` are
`none` on success; `createResult` covers payload construction plus
`cSigner.CreateAttestation`; `noteResult` is `GetOrCreateAttestationNote`. -/
structure SignerClient where
  attestations : Except String (List Attestation)
  deleteResult : Option String
  createResult : Except String Attestation
  noteResult : Except String String
  uploadResult : Option String

/-- `Signer.isAttestationAlreadyExist(image)`: true iff the existence query
succeeds and returns at least one attestation; a query error propagates. -/
def isAttestationAlreadyExist (c : SignerClient) : Except String Bool :=
  match c.attestations with
  | .ok atts => .ok (decide (0 < atts.length))
  | .error e => .error e

/-- `Signer.SignImage(image)` for one image, returning the collaborator calls
made (in order) and the final result (`none` = success).  Existence check
first; existing attestation without overwrite is a success no-op; with
overwrite the prior occurrence is deleted first and a delete failure aborts;
then the attestation is created, the note ensured and the occurrence
uploaded, each failure aborting with a phase-identifying message. -/
def SignImage (c : SignerClient) (overwrite : Bool) :
    List SignerCall × Option String :=
  match isAttestationAlreadyExist c with
  | .error e => ([], some ("checking existing attestation status failed: " ++ e))
  | .ok existed =>
    if existed && !overwrite then ([], none)
    else
      match (if existed && overwrite then
               (([SignerCall.deleteOccurrence], c.deleteResult) :
                 List SignerCall × Option String)
             else ([], none)) with
      | (calls, some e) =>
        (calls, some ("deleting existing attestation failed: " ++ e))
      | (calls, none) =>
        match c.createResult with
        | .error e =>
          (calls ++ [.createAttestation],
           some ("creatiing attestation failed: " ++ e))
        | .ok _att =>
          match c.noteResult with
          | .error e =>
            (calls ++ [.createAttestation, .getOrCreateNote],
             some ("uploading attestation failed: " ++ e))
          | .ok _note =>
            match c.uploadResult with
            | some e =>
              (calls ++ [.createAttestation, .getOrCreateNote, .uploadOccurrence],
               some ("uploading attestation failed: " ++ e))
            | none =>
              (calls ++ [.createAttestation, .getOrCreateNote, .uploadOccurrence],
               none)

/-! ## Review engine (`pkg/kritis/review`)

The review engine's source file is not among the provided sources — only its
unit tests (`review_test.go`) are.  The definitions below are therefore
modelled from the design document (§4.3 "Review Engine", §3 invariants, §8
testable properties), disambiguated where necessary by the expectations of
`TestReviewGAP` and `TestReviewISP`.  The injected collaborators (authority
resolver, attestation verification, allowlist pattern matching, vulnerability
validation, metadata fetch, recording strategy) are explicit parameters, as
in the Go `review.Config`.
-/

/-- `v1beta1.AttestationAuthority` (spec part): a named trust root with a
note reference.  Its public keys are consulted only through the injected
verification function, so they are not materialized here. -/
structure AttestationAuthority where
  name : String
  noteReference : String
deriving Repr, DecidableEq

/-- `v1beta1.AdmissionAllowlistPatternSpec`. -/
structure AdmissionAllowlistPattern where
  namePattern : String
deriving Repr, DecidableEq

/-- `v1beta1.GenericAttestationPolicy` (spec part). -/
structure GenericAttestationPolicy where
  admissionAllowlistPatterns : List AdmissionAllowlistPattern
  attestationAuthorityNames : List String
deriving Repr, DecidableEq

/-- `v1beta1.ImageSecurityPolicy` (spec part). -/
structure ImageSecurityPolicy where
  attestationAuthorityName : String
  privateKeySecretName : String
deriving Repr, DecidableEq

/-- Modelled from the spec: the review engine's injected collaborators
(`review.Config` and the metadata client, absent from the sources).
`authResolver` is the authority resolver (error = unresolvable name);
`verify` decides whether one fetched attestation verifies against one
authority's keys (per-attestation verification errors are soft, i.e. simply
`false`); `matchesPattern` is admission-allowlist pattern matching;
`globalAllowlist` is the operator-maintained exact-match global image
allowlist; `attestationsFor` is the metadata client's per-image attestation
fetch; `validate` is the injected vulnerability-policy validation
(`config.Validate`); `isWebhook` selects webhook vs. periodic mode. -/
structure ReviewConfig where
  authResolver : String → Except String AttestationAuthority
  verify : Attestation → AttestationAuthority → Bool
  matchesPattern : String → AdmissionAllowlistPattern → Bool
  globalAllowlist : List String
  attestationsFor : String → List Attestation
  validate : ImageSecurityPolicy → String → Except String (List Violation)
  isWebhook : Bool

/-- Modelled from the spec: what the recording strategy and metadata writes
accumulate over one review call.  `attRecords` are the per-image
`hasRequiredAtts`/`isAttested` records (in image order), `violRecords` the
per-image handled violations, `uploads` the images for which a new
attestation was created and uploaded, and `err` the review's result
(`none` = success). -/
structure ReviewOutcome where
  attRecords : List (String × Bool)
  violRecords : List (String × List Violation)
  uploads : List String
  err : Option String
deriving Repr, DecidableEq

/-- Modelled from the spec: does the image match any of the policy's
admission allowlist patterns. -/
def imageAllowlistedByGap (cfg : ReviewConfig) (image : String)
    (gap : GenericAttestationPolicy) : Bool :=
  gap.admissionAllowlistPatterns.any (cfg.matchesPattern image)

/-- Modelled from the spec: `getAttestationAuthoritiesForGAP` — resolve every
authority name of a GAP, failing on the first unresolvable name
(a configuration error). -/
def getAttestationAuthoritiesForGAP (cfg : ReviewConfig)
    (gap : GenericAttestationPolicy) : Except String (List AttestationAuthority) :=
  gap.attestationAuthorityNames.mapM cfg.authResolver

/-- Modelled from the spec: full attestation quorum — every authority in the
list has at least one fetched attestation that verifies against it. -/
def fullQuorum (cfg : ReviewConfig) (atts : List Attestation)
    (auths : List AttestationAuthority) : Bool :=
  auths.all fun a => atts.any fun att => cfg.verify att a

/-- Modelled from the spec: evaluation of one GAP for one image, returning
`(admitted, attestedByQuorum)`.  A GAP listing zero authorities can never be
satisfied, even when the image matches its allowlist patterns
(§3 invariant, and `TestReviewGAP` "gap without attestor should error on
allowlisted image").  Otherwise an allowlist match satisfies the policy with
no attestation check and without counting as attestation quorum
(`TestReviewGAP` "allowlisted image" records `hasRequiredAtts=false`).
Otherwise all authorities are resolved (error aborts) and the policy is
satisfied iff full quorum is reached. -/
def evalGapForImage (cfg : ReviewConfig) (atts : List Attestation)
    (image : String) (gap : GenericAttestationPolicy) :
    Except String (Bool × Bool) :=
  if gap.attestationAuthorityNames.isEmpty then .ok (false, false)
  else if imageAllowlistedByGap cfg image gap then .ok (true, false)
  else
    match getAttestationAuthoritiesForGAP cfg gap with
    | .error e => .error e
    | .ok auths =>
      let q := fullQuorum cfg atts auths
      .ok (q, q)

/-- Modelled from the spec: evaluation of all GAPs for one image —
disjunction across policies, separately for admission and for quorum
attestation. -/
def evalGapsForImage (cfg : ReviewConfig) (atts : List Attestation)
    (image : String) :
    List GenericAttestationPolicy → Except String (Bool × Bool)
  | [] => .ok (false, false)
  | gap :: rest =>
    match evalGapForImage cfg atts image gap with
    | .error e => .error e
    | .ok (adm, att) =>
      match evalGapsForImage cfg atts image rest with
      | .error e => .error e
      | .ok (adm', att') => .ok (adm || adm', att || att')

/-- Modelled from the spec: the GAP review failure message for an image not
admitted by any policy. -/
def notAttestedMessage (image : String) : String :=
  "image " ++ image ++ " is not attested by a valid attestor"

/-- Modelled from the spec: the per-image loop of `ReviewGAP`.  For each
image the fetched attestations are evaluated against every policy; a
resolution error aborts the batch immediately; otherwise `hasRequiredAtts`
(the quorum flag) is recorded through the strategy and the review fails for
the first non-admitted image. -/
def reviewGAPImages (cfg : ReviewConfig) (gaps : List GenericAttestationPolicy) :
    List String → List (String × Bool) × Option String
  | [] => ([], none)
  | image :: rest =>
    match evalGapsForImage cfg (cfg.attestationsFor image) image gaps with
    | .error e => ([], some e)
    | .ok (adm, att) =>
      if adm then
        let r := reviewGAPImages cfg gaps rest
        ((image, att) :: r.1, r.2)
      else
        ([(image, att)], some (notAttestedMessage image))

/-- Modelled from the spec: `Review.ReviewGAP(images, gaps, pod, client)` —
globally allowlisted images are removed first; with no images or no policies
left the review passes without recording anything; otherwise each image is
reviewed in order.  Returns the recorded `hasRequiredAtts` values and the
review result. -/
def ReviewGAP (cfg : ReviewConfig) (images : List String)
    (gaps : List GenericAttestationPolicy) :
    List (String × Bool) × Option String :=
  let imgs := images.filter fun i => !cfg.globalAllowlist.contains i
  if imgs.isEmpty then ([], none)
  else if gaps.isEmpty then ([], none)
  else reviewGAPImages cfg gaps imgs

/-- Modelled from the spec: review of one image against one ISP.  The single
named authority is resolved (error aborts); the fetched attestations are
verified against it and `isAttested` recorded; in webhook mode an attested
image passes unconditionally; otherwise the injected vulnerability validation
runs (error aborts), a non-empty violation list is recorded and fails the
review, and in webhook mode an unattested, violation-free image gets a new
attestation created and uploaded (trust on first use). -/
def reviewImageISP (cfg : ReviewConfig) (isp : ImageSecurityPolicy)
    (image : String) : ReviewOutcome :=
  match cfg.authResolver isp.attestationAuthorityName with
  | .error e => ⟨[], [], [], some e⟩
  | .ok auth =>
    let atts := cfg.attestationsFor image
    let isAttested := atts.any fun att => cfg.verify att auth
    if cfg.isWebhook && isAttested then
      ⟨[(image, isAttested)], [], [], none⟩
    else
      match cfg.validate isp image with
      | .error e => ⟨[(image, isAttested)], [], [], some e⟩
      | .ok violations =>
        if !violations.isEmpty then
          ⟨[(image, isAttested)], [(image, violations)], [],
            some ("found violations in " ++ image)⟩
        else if cfg.isWebhook && !isAttested then
          ⟨[(image, isAttested)], [], [image], none⟩
        else
          ⟨[(image, isAttested)], [], [], none⟩

/-- Sequencing of per-image outcomes: an error aborts the batch after the
failing image's records. -/
def seqOutcome (first : ReviewOutcome) (rest : Unit → ReviewOutcome) :
    ReviewOutcome :=
  match first.err with
  | some e => ⟨first.attRecords, first.violRecords, first.uploads, some e⟩
  | none =>
    let r := rest ()
    ⟨first.attRecords ++ r.attRecords, first.violRecords ++ r.violRecords,
      first.uploads ++ r.uploads, r.err⟩

/-- Modelled from the spec: the image loop of `ReviewISP` for one ISP. -/
def reviewISPImages (cfg : ReviewConfig) (isp : ImageSecurityPolicy) :
    List String → ReviewOutcome
  | [] => ⟨[], [], [], none⟩
  | image :: rest =>
    seqOutcome (reviewImageISP cfg isp image)
      fun _ => reviewISPImages cfg isp rest

/-- Modelled from the spec: the policy loop of `ReviewISP`. -/
def reviewISPPolicies (cfg : ReviewConfig) (images : List String) :
    List ImageSecurityPolicy → ReviewOutcome
  | [] => ⟨[], [], [], none⟩
  | isp :: rest =>
    seqOutcome (reviewISPImages cfg isp images)
      fun _ => reviewISPPolicies cfg images rest

/-- Modelled from the spec: `Review.ReviewISP(images, isps, pod, client)` —
globally allowlisted images are removed first, then every remaining image is
reviewed against every ISP. -/
def ReviewISP (cfg : ReviewConfig) (images : List String)
    (isps : List ImageSecurityPolicy) : ReviewOutcome :=
  let imgs := images.filter fun i => !cfg.globalAllowlist.contains i
  reviewISPPolicies cfg imgs isps

/-! ### Cross-check of the modelled review engine against `review_test.go`

The following concrete scenario mirrors the fixtures of `TestReviewGAP` and
`TestReviewISP`; each example reproduces one test case's expectation
(`hasRequiredAtts` / handled violations / attested image / `shouldErr`). -/

/-- Test fixture: the attestation produced by secret `sec` over the qualified
test image (verifiable by authority `test`). -/
def att1 : Attestation := ⟨"fpr1", [0], [0]⟩

/-- Test fixture: the attestation produced by secret `sec2` over the
qualified test image (verifiable by authority `test2`). -/
def att2 : Attestation := ⟨"fpr2", [0], [0]⟩

/-- Test fixture: an attestation by `sec` over a different image — its
signature verifies but its payload names another image, so attestation
verification fails as a whole. -/
def invalidAtt : Attestation := ⟨"fpr1", [0], [1]⟩

/-- Test fixture: the two resolvable authorities `test` and `test2`. -/
def testAuthResolver (name : String) : Except String AttestationAuthority :=
  if name = "test" then .ok ⟨"test", "projects/test-1/notes/note-1"⟩
  else if name = "test2" then .ok ⟨"test2", "projects/test-1/notes/note-2"⟩
  else .error ("no such attestation authority: " ++ name)

/-- Test fixture: attestation verification outcome in the test scenario —
`att1` verifies only under `test`, `att2` only under `test2`, and the
payload must name the reviewed image (payload byte `0`). -/
def testVerify (att : Attestation) (auth : AttestationAuthority) : Bool :=
  att.serializedPayload = [0] &&
    ((att.publicKeyID = "fpr1" && auth.name = "test") ||
     (att.publicKeyID = "fpr2" && auth.name = "test2"))

/-- Test fixture: the violation returned by the mock validator for the
vulnerable image. -/
def vulnViolation : Violation :=
  ⟨some ⟨"", "foo", false⟩, .severity, "vuln"⟩

/-- Test fixture: the violation returned by the mock validator for an
unqualified image. -/
def unqualifiedViolation (image : String) : Violation :=
  ⟨none, .unqualifiedImage, UnqualifiedImageReason image⟩

/-- Test fixture: the qualified image with a vulnerability. -/
def vulnImage : String := "gcr.io/foo/vuln@sha256:aaa"

/-- Test fixture: the qualified image without vulnerabilities. -/
def noVulnImage : String := "gcr.io/foo/novuln@sha256:bbb"

/-- Test fixture: the mock `config.Validate` of `TestReviewISP`. -/
def testValidate (_ : ImageSecurityPolicy) (image : String) :
    Except String (List Violation) :=
  if image = vulnImage then .ok [vulnViolation]
  else if image = "image:tag" then .ok [unqualifiedViolation image]
  else .ok []

/-- Test fixture: the review configuration of the tests, parameterized by
the attestations the mock metadata client returns and the mode flag. -/
def testCfg (atts : List Attestation) (isWebhook : Bool) : ReviewConfig :=
  { authResolver := testAuthResolver
    verify := testVerify
    matchesPattern := fun image p => image = p.namePattern
    globalAllowlist :=
      ["us.gcr.io/grafeas/grafeas-server:0.1.0", "gcr.io/kritis-project/preinstall"]
    attestationsFor := fun _ => atts
    validate := testValidate
    isWebhook := isWebhook }

/-- Test fixture: `oneGAP` — allowlist pattern `allowed_image_name`,
single authority `test`. -/
def oneGAP : GenericAttestationPolicy := ⟨[⟨"allowed_image_name"⟩], ["test"]⟩

/-- Test fixture: the second policy of `twoGAPs` — authority `test2` only. -/
def gap2 : GenericAttestationPolicy := ⟨[], ["test2"]⟩

/-- Test fixture: `gapWithTwoAAs` — both authorities, no allowlist. -/
def gapWithTwoAAs : GenericAttestationPolicy := ⟨[], ["test", "test2"]⟩

/-- Test fixture: `gapWithoutAA` — allowlist pattern but zero authorities. -/
def gapWithoutAA : GenericAttestationPolicy := ⟨[⟨"allowed_image_name"⟩], []⟩

example : -- "valid image with attestation"
    ReviewGAP (testCfg [att1] true) [vulnImage] [oneGAP]
      = ([(vulnImage, true)], none) := by decide

example : -- "image without attestation"
    ReviewGAP (testCfg [] true) [vulnImage] [oneGAP]
      = ([(vulnImage, false)], some (notAttestedMessage vulnImage)) := by decide

example : -- "gap without attestor should error"
    ReviewGAP (testCfg [] true) [vulnImage] [gapWithoutAA]
      = ([(vulnImage, false)], some (notAttestedMessage vulnImage)) := by decide

example : -- "gap without attestor should error on allowlisted image"
    ReviewGAP (testCfg [] true) ["allowed_image_name"] [gapWithoutAA]
      = ([("allowed_image_name", false)],
          some (notAttestedMessage "allowed_image_name")) := by decide

example : -- "allowlisted image"
    ReviewGAP (testCfg [] true) ["allowed_image_name"] [oneGAP]
      = ([("allowed_image_name", false)], none) := by decide

example : -- "image allowlisted in 1 policy"
    ReviewGAP (testCfg [] true) ["allowed_image_name"] [oneGAP, gap2]
      = ([("allowed_image_name", false)], none) := by decide

example : -- "image without policies"
    ReviewGAP (testCfg [] true) [vulnImage] [] = ([], none) := by decide

example : -- "image with invalid attestation"
    ReviewGAP (testCfg [invalidAtt] true) [vulnImage] [oneGAP]
      = ([(vulnImage, false)], some (notAttestedMessage vulnImage)) := by decide

example : -- "image complies with one policy out of two"
    ReviewGAP (testCfg [att1] true) [vulnImage] [oneGAP, gap2]
      = ([(vulnImage, true)], none) := by decide

example : -- "image in global allowlist"
    ReviewGAP (testCfg [] true) ["us.gcr.io/grafeas/grafeas-server:0.1.0"]
      [oneGAP, gap2] = ([], none) := by decide

example : -- "image attested by one attestor out of two"
    ReviewGAP (testCfg [att1] true) [vulnImage] [gapWithTwoAAs]
      = ([(vulnImage, false)], some (notAttestedMessage vulnImage)) := by decide

example : -- "image attested by two attestors out of two"
    ReviewGAP (testCfg [att1, att2] true) [vulnImage] [gapWithTwoAAs]
      = ([(vulnImage, true)], none) := by decide

/-- Test fixture: the single ISP of `TestReviewISP`. -/
def testISP : ImageSecurityPolicy := ⟨"test", "test"⟩

example : -- "vulnz w attestation for Webhook should not handle violations"
    ReviewISP (testCfg [att1] true) [vulnImage] [testISP]
      = ⟨[(vulnImage, true)], [], [], none⟩ := by decide

example : -- "vulnz w/o attestation for Webhook should handle violations"
    ReviewISP (testCfg [] true) [vulnImage] [testISP]
      = ⟨[(vulnImage, false)], [(vulnImage, [vulnViolation])], [],
          some ("found violations in " ++ vulnImage)⟩ := by decide

example : -- "no vulnz w/o attestation for webhook should add attestation"
    ReviewISP (testCfg [] true) [noVulnImage] [testISP]
      = ⟨[(noVulnImage, false)], [], [noVulnImage], none⟩ := by decide

example : -- "vulnz w attestation for cron should handle vuln"
    ReviewISP (testCfg [att1] false) [vulnImage] [testISP]
      = ⟨[(vulnImage, true)], [(vulnImage, [vulnViolation])], [],
          some ("found violations in " ++ vulnImage)⟩ := by decide

example : -- "vulnz w/o attestation for cron should handle vuln"
    ReviewISP (testCfg [] false) [vulnImage] [testISP]
      = ⟨[(vulnImage, false)], [(vulnImage, [vulnViolation])], [],
          some ("found violations in " ++ vulnImage)⟩ := by decide

example : -- "no vulnz w/o attestation for cron should verify attestations"
    ReviewISP (testCfg [] false) [noVulnImage] [testISP]
      = ⟨[(noVulnImage, false)], [], [], none⟩ := by decide

example : -- "no vulnz w attestation for cron should verify attestations"
    ReviewISP (testCfg [att1] false) [noVulnImage] [testISP]
      = ⟨[(noVulnImage, true)], [], [], none⟩ := by decide

example : -- "unqualified image for cron should fail and not attest"
    ReviewISP (testCfg [] false) ["image:tag"] [testISP]
      = ⟨[("image:tag", false)],
          [("image:tag", [unqualifiedViolation "image:tag"])], [],
          some ("found violations in " ++ "image:tag")⟩ := by decide

example : -- "unqualified image for webhook should fail and not attest"
    ReviewISP (testCfg [] true) ["image:tag"] [testISP]
      = ⟨[("image:tag", false)],
          [("image:tag", [unqualifiedViolation "image:tag"])], [],
          some ("found violations in " ++ "image:tag")⟩ := by decide

example : -- "review image in global allowlist"
    ReviewISP (testCfg [] true) ["gcr.io/kritis-project/preinstall"] [testISP]
      = ⟨[], [], [], none⟩ := by decide

/-! ## Theorems about the vulnerability policy evaluator -/

/-- C8: for every image reference that is not fully qualified and every
vulnerability list (including non-empty ones), `ValidateVulnzSigningPolicy`
returns exactly one violation, of type `UnqualifiedImage`, together with no
error, independently of the vulnerabilities — no severity-threshold
evaluation takes place. -/
theorem validate_unqualified_single_violation
    (fq : String → Bool) (vsp : VulnzSigningPolicy) (image : String)
    (vulnz : List Vulnerability) (h : fq image = false) :
    ValidateVulnzSigningPolicy fq vsp image vulnz
      = ([⟨none, .unqualifiedImage, UnqualifiedImageReason image⟩], none) := by
  simp [ValidateVulnzSigningPolicy, h]

theorem validate_unqualified_single_violation_witness :
    (fun (_ : String) => false) "image:tag" = false ∧
    ValidateVulnzSigningPolicy (fun _ => false) ⟨⟨"", "", []⟩⟩ "image:tag"
        [⟨"CVE-1", "CRITICAL", true⟩, ⟨"CVE-2", "HIGH", false⟩]
      = ([⟨none, .unqualifiedImage, UnqualifiedImageReason "image:tag"⟩], none) :=
  ⟨rfl,
    validate_unqualified_single_violation (fun _ => false) ⟨⟨"", "", []⟩⟩
      "image:tag" [⟨"CVE-1", "CRITICAL", true⟩, ⟨"CVE-2", "HIGH", false⟩] rfl⟩

/-- A non-sentinel threshold that is outside the recognized severity
vocabulary, or a vulnerability severity outside the vocabulary under a
recognized non-sentinel threshold, makes `severityWithinThreshold` fail. -/
theorem severityWithinThreshold_error (t s : String)
    (h1 : t ≠ BlockAll) (h2 : t ≠ AllowAll)
    (h3 : Severity_value t = none ∨ Severity_value s = none) :
    ∃ e, severityWithinThreshold t s = .error e := by
  unfold severityWithinThreshold
  simp only [h1, h2, if_false]
  rcases h3 with h3 | h3
  · rw [h3]; exact ⟨_, rfl⟩
  · cases hmax : Severity_value t with
    | none => exact ⟨_, rfl⟩
    | some mv => rw [h3]; exact ⟨_, rfl⟩

/-- If a non-allowlisted vulnerability in the list has an applicable
threshold that triggers a `severityWithinThreshold` error, the loop reports
an error. -/
theorem validateVulnzLoop_error_of_mem (vsp : VulnzSigningPolicy)
    (image maxSev maxNoFixSev : String) (v : Vulnerability) :
    ∀ vulnz : List Vulnerability, v ∈ vulnz →
    makeCVEAllowlistMap vsp v.cve = false →
    (∃ e, severityWithinThreshold
        (if v.hasFixAvailable then maxSev else maxNoFixSev) v.severity
        = .error e) →
    (validateVulnzLoop vsp image maxSev maxNoFixSev vulnz).2.isSome := by
  intro vulnz
  induction vulnz with
  | nil => intro h; cases h
  | cons a rest ih =>
    intro hmem hallow herr
    rcases List.mem_cons.mp hmem with heq | hmem'
    · subst heq
      obtain ⟨e, he⟩ := herr
      by_cases hfix : v.hasFixAvailable
      · simp only [hfix, if_true] at he
        unfold validateVulnzLoop
        simp [hallow, hfix, he]
      · simp [hfix] at he
        unfold validateVulnzLoop
        simp [hallow, hfix, he]
    · have tail := ih hmem' hallow herr
      unfold validateVulnzLoop
      by_cases ha : makeCVEAllowlistMap vsp a.cve
      · simpa [ha] using tail
      · simp only [ha, if_false]
        by_cases hfix : a.hasFixAvailable
        · simp only [hfix, Bool.not_true]
          cases hsw : severityWithinThreshold maxSev a.severity with
          | error e => simp
          | ok b =>
            cases b
            · simpa using tail
            · simpa using tail
        · simp only [hfix, Bool.not_false]
          cases hsw : severityWithinThreshold maxNoFixSev a.severity with
          | error e => simp
          | ok b =>
            cases b
            · simpa using tail
            · simpa using tail

/-- C6: if a fully qualified image's vulnerability list contains a
non-allowlisted vulnerability whose applicable resolved threshold is not one
of the two documented sentinels, and either that threshold or the
vulnerability's severity is outside the recognized severity vocabulary, then
`ValidateVulnzSigningPolicy` returns a hard error. -/
theorem validate_unrecognized_severity_hard_error
    (fq : String → Bool) (vsp : VulnzSigningPolicy) (image : String)
    (vulnz : List Vulnerability) (v : Vulnerability)
    (hq : fq image = true) (hmem : v ∈ vulnz)
    (hallow : makeCVEAllowlistMap vsp v.cve = false)
    (ht :
      let maxSev :=
        if vsp.imageVulnerabilityRequirements.maximumFixableSeverity = ""
        then Critical else vsp.imageVulnerabilityRequirements.maximumFixableSeverity
      let maxNoFixSev :=
        if vsp.imageVulnerabilityRequirements.maximumUnfixableSeverity = ""
        then AllowAll else vsp.imageVulnerabilityRequirements.maximumUnfixableSeverity
      let t := if v.hasFixAvailable then maxSev else maxNoFixSev
      t ≠ BlockAll ∧ t ≠ AllowAll ∧
        (Severity_value t = none ∨ Severity_value v.severity = none)) :
    (ValidateVulnzSigningPolicy fq vsp image vulnz).2.isSome := by
  obtain ⟨h1, h2, h3⟩ := ht
  unfold ValidateVulnzSigningPolicy
  rw [hq]
  simp only [Bool.not_true, if_false]
  apply validateVulnzLoop_error_of_mem vsp image _ _ v vulnz hmem hallow
  by_cases hfix : v.hasFixAvailable
  · simp only [hfix, if_true] at h1 h2 h3 ⊢
    exact severityWithinThreshold_error _ _ h1 h2 h3
  · simp only [hfix, if_false] at h1 h2 h3 ⊢
    exact severityWithinThreshold_error _ _ h1 h2 h3

theorem validate_unrecognized_severity_hard_error_witness :
    (ValidateVulnzSigningPolicy (fun _ => true)
        ⟨⟨"HIGH", "", []⟩⟩ "gcr.io/p/img@sha256:abc"
        [⟨"CVE-1", "foo", true⟩]).2.isSome := by
  apply validate_unrecognized_severity_hard_error (fun _ => true)
      ⟨⟨"HIGH", "", []⟩⟩ "gcr.io/p/img@sha256:abc"
      [⟨"CVE-1", "foo", true⟩] ⟨"CVE-1", "foo", true⟩ rfl
      (List.mem_singleton.mpr rfl) rfl
  refine ⟨by decide, by decide, Or.inr (by decide)⟩

/-- The loop reports an error exactly by aborting at some position `n`:
the violations returned are those accumulated over the clean prefix of
length `n`, and the element at position `n` triggers the error. -/
theorem validateVulnzLoop_error_split (vsp : VulnzSigningPolicy)
    (image maxSev maxNoFixSev : String) :
    ∀ (vulnz : List Vulnerability) (vs : List Violation) (e : String),
    validateVulnzLoop vsp image maxSev maxNoFixSev vulnz = (vs, some e) →
    ∃ n, n < vulnz.length ∧
      validateVulnzLoop vsp image maxSev maxNoFixSev (List.take n vulnz)
        = (vs, none) ∧
      (validateVulnzLoop vsp image maxSev maxNoFixSev
        (List.take (n+1) vulnz)).2 = some e := by
  intro vulnz
  induction vulnz with
  | nil =>
    intro vs e h
    exact absurd h (by simp [validateVulnzLoop])
  | cons a rest ih =>
    intro vs e h
    by_cases ha : makeCVEAllowlistMap vsp a.cve
    · rw [show validateVulnzLoop vsp image maxSev maxNoFixSev (a :: rest)
            = validateVulnzLoop vsp image maxSev maxNoFixSev rest from by
          (conv_lhs => unfold validateVulnzLoop); simp [ha]] at h
      obtain ⟨n, hn, h1, h2⟩ := ih vs e h
      refine ⟨n + 1, by simpa using Nat.succ_lt_succ hn, ?_, ?_⟩
      · rw [List.take_succ_cons]
        unfold validateVulnzLoop
        simp [ha, h1]
      · rw [List.take_succ_cons]
        unfold validateVulnzLoop
        simp [ha, h2]
    · by_cases hfix : a.hasFixAvailable
      · cases hsw : severityWithinThreshold maxSev a.severity with
        | error e' =>
          rw [show validateVulnzLoop vsp image maxSev maxNoFixSev (a :: rest)
                = ([], some e') from by
              (conv_lhs => unfold validateVulnzLoop); simp [ha, hfix, hsw]] at h
          simp only [Prod.mk.injEq, Option.some.injEq] at h
          obtain ⟨hvs, he⟩ := h
          refine ⟨0, by simp, ?_, ?_⟩
          · simp [validateVulnzLoop, ← hvs]
          · simp only [List.take_succ_cons, List.take_zero]
            unfold validateVulnzLoop
            simp [ha, hfix, hsw, he]
        | ok b =>
          cases b with
          | true =>
            rw [show validateVulnzLoop vsp image maxSev maxNoFixSev (a :: rest)
                  = validateVulnzLoop vsp image maxSev maxNoFixSev rest from by
                (conv_lhs => unfold validateVulnzLoop); simp [ha, hfix, hsw]] at h
            obtain ⟨n, hn, h1, h2⟩ := ih vs e h
            refine ⟨n + 1, by simpa using Nat.succ_lt_succ hn, ?_, ?_⟩
            · rw [List.take_succ_cons]
              unfold validateVulnzLoop
              simp [ha, hfix, hsw, h1]
            · rw [List.take_succ_cons]
              unfold validateVulnzLoop
              simp [ha, hfix, hsw, h2]
          | false =>
            rw [show validateVulnzLoop vsp image maxSev maxNoFixSev (a :: rest)
                  = (⟨some a, .severity, FixableSeverityViolationReason image a⟩ ::
                      (validateVulnzLoop vsp image maxSev maxNoFixSev rest).1,
                     (validateVulnzLoop vsp image maxSev maxNoFixSev rest).2)
                from by (conv_lhs => unfold validateVulnzLoop); simp [ha, hfix, hsw]] at h
            simp only [Prod.mk.injEq] at h
            obtain ⟨hvs, hr2⟩ := h
            obtain ⟨n, hn, h1, h2⟩ := ih
              (validateVulnzLoop vsp image maxSev maxNoFixSev rest).1 e
              (by rw [← hr2])
            refine ⟨n + 1, by simpa using Nat.succ_lt_succ hn, ?_, ?_⟩
            · rw [List.take_succ_cons]
              unfold validateVulnzLoop
              simp [ha, hfix, hsw, h1, ← hvs]
            · rw [List.take_succ_cons]
              unfold validateVulnzLoop
              simp [ha, hfix, hsw, h2]
      · cases hsw : severityWithinThreshold maxNoFixSev a.severity with
        | error e' =>
          rw [show validateVulnzLoop vsp image maxSev maxNoFixSev (a :: rest)
                = ([], some e') from by
              (conv_lhs => unfold validateVulnzLoop); simp [ha, hfix, hsw]] at h
          simp only [Prod.mk.injEq, Option.some.injEq] at h
          obtain ⟨hvs, he⟩ := h
          refine ⟨0, by simp, ?_, ?_⟩
          · simp [validateVulnzLoop, ← hvs]
          · simp only [List.take_succ_cons, List.take_zero]
            unfold validateVulnzLoop
            simp [ha, hfix, hsw, he]
        | ok b =>
          cases b with
          | true =>
            rw [show validateVulnzLoop vsp image maxSev maxNoFixSev (a :: rest)
                  = validateVulnzLoop vsp image maxSev maxNoFixSev rest from by
                (conv_lhs => unfold validateVulnzLoop); simp [ha, hfix, hsw]] at h
            obtain ⟨n, hn, h1, h2⟩ := ih vs e h
            refine ⟨n + 1, by simpa using Nat.succ_lt_succ hn, ?_, ?_⟩
            · rw [List.take_succ_cons]
              unfold validateVulnzLoop
              simp [ha, hfix, hsw, h1]
            · rw [List.take_succ_cons]
              unfold validateVulnzLoop
              simp [ha, hfix, hsw, h2]
          | false =>
            rw [show validateVulnzLoop vsp image maxSev maxNoFixSev (a :: rest)
                  = (⟨some a, .fixUnavailable,
                        UnfixableSeverityViolationReason image a⟩ ::
                      (validateVulnzLoop vsp image maxSev maxNoFixSev rest).1,
                     (validateVulnzLoop vsp image maxSev maxNoFixSev rest).2)
                from by (conv_lhs => unfold validateVulnzLoop); simp [ha, hfix, hsw]] at h
            simp only [Prod.mk.injEq] at h
            obtain ⟨hvs, hr2⟩ := h
            obtain ⟨n, hn, h1, h2⟩ := ih
              (validateVulnzLoop vsp image maxSev maxNoFixSev rest).1 e
              (by rw [← hr2])
            refine ⟨n + 1, by simpa using Nat.succ_lt_succ hn, ?_, ?_⟩
            · rw [List.take_succ_cons]
              unfold validateVulnzLoop
              simp [ha, hfix, hsw, h1, ← hvs]
            · rw [List.take_succ_cons]
              unfold validateVulnzLoop
              simp [ha, hfix, hsw, h2]

/-- C10: whenever `ValidateVulnzSigningPolicy` returns an error, the
violation list it returns is the (possibly non-empty) list accumulated for
the vulnerabilities processed before the one — at some position `n` — that
triggered the error: the output is a partial enumeration, not atomic. -/
theorem validate_error_partial_violations
    (fq : String → Bool) (vsp : VulnzSigningPolicy) (image : String)
    (vulnz : List Vulnerability) (vs : List Violation) (e : String)
    (h : ValidateVulnzSigningPolicy fq vsp image vulnz = (vs, some e)) :
    ∃ n, n < vulnz.length ∧
      ValidateVulnzSigningPolicy fq vsp image (List.take n vulnz)
        = (vs, none) ∧
      (ValidateVulnzSigningPolicy fq vsp image
        (List.take (n+1) vulnz)).2 = some e := by
  by_cases hq : fq image
  · unfold ValidateVulnzSigningPolicy at h ⊢
    simp only [hq, Bool.not_true, Bool.false_eq_true, if_false] at h ⊢
    exact validateVulnzLoop_error_split vsp image _ _ vulnz vs e h
  · exfalso
    have hq' : fq image = false := by simpa using hq
    rw [validate_unqualified_single_violation fq vsp image vulnz hq'] at h
    simp at h

theorem validate_error_partial_violations_witness :
    ∃ n, n < 2 ∧
      ValidateVulnzSigningPolicy (fun _ => true) ⟨⟨"LOW", "", []⟩⟩
          "gcr.io/p/img@sha256:abc"
          (List.take n [⟨"CVE-1", "HIGH", true⟩, ⟨"CVE-2", "foo", true⟩])
        = ([⟨some ⟨"CVE-1", "HIGH", true⟩, .severity,
              FixableSeverityViolationReason "gcr.io/p/img@sha256:abc"
                ⟨"CVE-1", "HIGH", true⟩⟩], none) ∧
      (ValidateVulnzSigningPolicy (fun _ => true) ⟨⟨"LOW", "", []⟩⟩
          "gcr.io/p/img@sha256:abc"
          (List.take (n+1) [⟨"CVE-1", "HIGH", true⟩, ⟨"CVE-2", "foo", true⟩])).2
        = some "invalid severity level: foo" :=
  validate_error_partial_violations (fun _ => true) ⟨⟨"LOW", "", []⟩⟩
    "gcr.io/p/img@sha256:abc"
    [⟨"CVE-1", "HIGH", true⟩, ⟨"CVE-2", "foo", true⟩]
    [⟨some ⟨"CVE-1", "HIGH", true⟩, .severity,
        FixableSeverityViolationReason "gcr.io/p/img@sha256:abc"
          ⟨"CVE-1", "HIGH", true⟩⟩]
    "invalid severity level: foo" (by decide)

/-! ## Theorems about the attestation codec and signer -/

/-- C9: for PGP keys, `NewPublicKey` ignores the caller-supplied key ID —
the result is the same for any two supplied IDs; when the armored keyring
parses to exactly one key, the returned `PublicKey`'s ID is the uppercase
hexadecimal rendering of that key's fingerprint; and when the keyring parses
to zero keys or more than one key, `NewPublicKey` returns an error. -/
theorem new_public_key_pgp_id
    (ring : List Nat → Except String (List PgpEntity))
    (uriOk : String → Bool) (sigAlg : SignatureAlgorithm) (keyData : List Nat) :
    (∀ keyID keyID2 : String,
      NewPublicKey ring uriOk .pgp sigAlg keyData keyID
        = NewPublicKey ring uriOk .pgp sigAlg keyData keyID2)
    ∧ (∀ (keyID : String) (entity : PgpEntity), ring keyData = .ok [entity] →
        NewPublicKey ring uriOk .pgp sigAlg keyData keyID
          = .ok ⟨.pgp, sigAlg, keyData, upperHex entity.primaryKeyFingerprint⟩)
    ∧ (∀ (keyID : String) (keyring : List PgpEntity),
        ring keyData = .ok keyring → keyring.length ≠ 1 →
        ∃ e, NewPublicKey ring uriOk .pgp sigAlg keyData keyID = .error e) := by
  refine ⟨fun keyID keyID2 => rfl, ?_, ?_⟩
  · intro keyID entity hring
    unfold NewPublicKey extractPgpKeyID
    rw [hring]
    simp
  · intro keyID keyring hring hlen
    unfold NewPublicKey extractPgpKeyID
    rw [hring]
    simp only [hlen, ne_eq, not_false_eq_true, if_true]
    exact ⟨_, rfl⟩

theorem new_public_key_pgp_id_witness :
    ((fun (_ : List Nat) =>
        (Except.ok [⟨[238, 24, 191]⟩] : Except String (List PgpEntity))) [1])
        = .ok [⟨[238, 24, 191]⟩] ∧
    NewPublicKey (fun _ => .ok [⟨[238, 24, 191]⟩]) (fun _ => true) .pgp
        ⟨0⟩ [1] "caller-supplied-id"
      = .ok ⟨.pgp, ⟨0⟩, [1], "EE18BF"⟩ ∧
    (∃ e, NewPublicKey (fun _ => .ok ([] : List PgpEntity)) (fun _ => true)
        .pgp ⟨0⟩ [1] "caller-supplied-id" = .error e) := by
  refine ⟨rfl, ?_, ?_⟩
  · have h := (new_public_key_pgp_id (fun _ => .ok [⟨[238, 24, 191]⟩])
      (fun _ => true) ⟨0⟩ [1]).2.1 "caller-supplied-id" ⟨[238, 24, 191]⟩ rfl
    rw [h]
    rfl
  · exact (new_public_key_pgp_id (fun _ => .ok []) (fun _ => true) ⟨0⟩ [1]).2.2
      "caller-supplied-id" [] rfl (by decide)

/-- C5: when the existence query succeeds and returns at least one
attestation, `SignImage` with `overwrite=false` is a success no-op making no
delete/create/upload calls; with `overwrite=true` it deletes the existing
occurrence first and then creates and uploads exactly one new attestation
(when those phases succeed); and when the delete fails it returns an error
having made no create or upload call. -/
theorem sign_image_existing_attestation
    (c : SignerClient) (atts : List Attestation)
    (hex : c.attestations = .ok atts) (hne : atts ≠ []) :
    (SignImage c false = ([], none))
    ∧ (∀ att note, c.deleteResult = none → c.createResult = .ok att →
        c.noteResult = .ok note → c.uploadResult = none →
        SignImage c true
          = ([.deleteOccurrence, .createAttestation, .getOrCreateNote,
              .uploadOccurrence], none))
    ∧ (∀ e, c.deleteResult = some e →
        SignImage c true
          = ([.deleteOccurrence],
             some ("deleting existing attestation failed: " ++ e))) := by
  have hexist : isAttestationAlreadyExist c = .ok true := by
    unfold isAttestationAlreadyExist
    rw [hex]
    simp [List.length_pos, hne]
  refine ⟨?_, ?_, ?_⟩
  · unfold SignImage
    rw [hexist]
    simp
  · intro att note hdel hcreate hnote hupload
    unfold SignImage
    rw [hexist]
    simp only [Bool.not_true, Bool.and_false, Bool.false_eq_true, if_false,
      Bool.and_true]
    simp only [if_true]
    rw [hdel, hcreate, hnote, hupload]
    rfl
  · intro e hdel
    unfold SignImage
    rw [hexist]
    simp only [Bool.not_true, Bool.and_false, Bool.false_eq_true, if_false,
      Bool.and_true]
    simp only [if_true]
    rw [hdel]

theorem sign_image_existing_attestation_witness :
    (SignImage ⟨.ok [⟨"id", [0], [0]⟩], none, .ok ⟨"id", [0], [0]⟩, .ok "note",
        none⟩ false = ([], none))
    ∧ (SignImage ⟨.ok [⟨"id", [0], [0]⟩], none, .ok ⟨"id", [0], [0]⟩,
        .ok "note", none⟩ true
        = ([.deleteOccurrence, .createAttestation, .getOrCreateNote,
            .uploadOccurrence], none))
    ∧ (SignImage ⟨.ok [⟨"id", [0], [0]⟩], some "boom", .ok ⟨"id", [0], [0]⟩,
        .ok "note", none⟩ true
        = ([.deleteOccurrence],
           some ("deleting existing attestation failed: " ++ "boom"))) := by
  refine ⟨?_, ?_, ?_⟩
  · exact (sign_image_existing_attestation _ [⟨"id", [0], [0]⟩] rfl
      (by decide)).1
  · exact (sign_image_existing_attestation _ [⟨"id", [0], [0]⟩] rfl
      (by decide)).2.1 ⟨"id", [0], [0]⟩ "note" rfl rfl rfl rfl
  · exact (sign_image_existing_attestation _ [⟨"id", [0], [0]⟩] rfl
      (by decide)).2.2 "boom" rfl

/-! ## Theorems about the review engine -/

/-- C1: for an image not matching a GAP's allowlist patterns (and not
globally allowlisted), `ReviewGAP` counts the policy as satisfied — review
passes — iff the policy's authority list is non-empty and every listed
(successfully resolved) authority has at least one fetched attestation that
verifies against it; the recorded `hasRequiredAtts` is that same quorum
value.  In particular a partial quorum or an empty authority list is never
satisfied. -/
theorem gap_quorum_conjunction
    (cfg : ReviewConfig) (image : String) (gap : GenericAttestationPolicy)
    (auths : List AttestationAuthority)
    (hglob : cfg.globalAllowlist.contains image = false)
    (hallow : imageAllowlistedByGap cfg image gap = false)
    (hres : getAttestationAuthoritiesForGAP cfg gap = .ok auths) :
    ReviewGAP cfg [image] [gap]
      = ([(image, !gap.attestationAuthorityNames.isEmpty
              && fullQuorum cfg (cfg.attestationsFor image) auths)],
         if !gap.attestationAuthorityNames.isEmpty
              && fullQuorum cfg (cfg.attestationsFor image) auths
         then none else some (notAttestedMessage image)) := by
  have hmem : image ∉ cfg.globalAllowlist := by simpa using hglob
  have hstep : ReviewGAP cfg [image] [gap] = reviewGAPImages cfg [gap] [image] := by
    unfold ReviewGAP
    simp [hmem]
  rw [hstep]
  by_cases hempty : gap.attestationAuthorityNames.isEmpty
  · have heval : evalGapForImage cfg (cfg.attestationsFor image) image gap
        = .ok (false, false) := by
      unfold evalGapForImage
      simp [hempty]
    unfold reviewGAPImages evalGapsForImage
    rw [heval]
    simp [hempty, evalGapsForImage]
  · have heval : evalGapForImage cfg (cfg.attestationsFor image) image gap
        = .ok (fullQuorum cfg (cfg.attestationsFor image) auths,
               fullQuorum cfg (cfg.attestationsFor image) auths) := by
      unfold evalGapForImage
      simp [hempty, hallow, hres]
    unfold reviewGAPImages evalGapsForImage
    rw [heval]
    cases hq : fullQuorum cfg (cfg.attestationsFor image) auths
    · simp [hempty, hq, evalGapsForImage, reviewGAPImages]
    · simp [hempty, hq, evalGapsForImage, reviewGAPImages]

theorem gap_quorum_conjunction_witness :
    ReviewGAP (testCfg [att1] true) [vulnImage] [gapWithTwoAAs]
      = ([(vulnImage, !gapWithTwoAAs.attestationAuthorityNames.isEmpty
              && fullQuorum (testCfg [att1] true)
                   ((testCfg [att1] true).attestationsFor vulnImage)
                   [⟨"test", "projects/test-1/notes/note-1"⟩,
                    ⟨"test2", "projects/test-1/notes/note-2"⟩])],
         if !gapWithTwoAAs.attestationAuthorityNames.isEmpty
              && fullQuorum (testCfg [att1] true)
                   ((testCfg [att1] true).attestationsFor vulnImage)
                   [⟨"test", "projects/test-1/notes/note-1"⟩,
                    ⟨"test2", "projects/test-1/notes/note-2"⟩]
         then none else some (notAttestedMessage vulnImage)) :=
  gap_quorum_conjunction (testCfg [att1] true) vulnImage gapWithTwoAAs
    [⟨"test", "projects/test-1/notes/note-1"⟩,
     ⟨"test2", "projects/test-1/notes/note-2"⟩]
    (by decide) (by decide) rfl

/-- C2 counterexample: the image `allowed_image_name` matches the allowlist
pattern of `gapWithoutAA` (a policy with zero authorities), yet `ReviewGAP`
returns an error for it — the policy is not treated as satisfied, refuting
the claim's "including when that same policy lists zero attestation
authorities". -/
theorem gap_allowlist_zero_authorities_counterexample :
    imageAllowlistedByGap (testCfg [] true) "allowed_image_name" gapWithoutAA
        = true
    ∧ (ReviewGAP (testCfg [] true) ["allowed_image_name"] [gapWithoutAA]).2
        = some (notAttestedMessage "allowed_image_name") := by
  constructor
  · decide
  · decide

/-- C2 amended: an image matching an allowlist pattern of a GAP that lists
at least one authority satisfies that policy with no attestation check
(passing, with `hasRequiredAtts` recorded false); but a GAP listing zero
authorities is never satisfied, not even for images matching its allowlist
patterns. -/
theorem gap_allowlist_shortcircuit_amended
    (cfg : ReviewConfig) (image : String) (gap : GenericAttestationPolicy)
    (hglob : cfg.globalAllowlist.contains image = false)
    (hallow : imageAllowlistedByGap cfg image gap = true)
    (hnonempty : gap.attestationAuthorityNames.isEmpty = false) :
    ReviewGAP cfg [image] [gap] = ([(image, false)], none)
    ∧ ∀ (cfg' : ReviewConfig) (atts : List Attestation) (image' : String)
        (gap' : GenericAttestationPolicy),
        gap'.attestationAuthorityNames = [] →
        evalGapForImage cfg' atts image' gap' = .ok (false, false) := by
  constructor
  · have heval : evalGapForImage cfg (cfg.attestationsFor image) image gap
        = .ok (true, false) := by
      unfold evalGapForImage
      simp [hnonempty, hallow]
    have hmem : image ∉ cfg.globalAllowlist := by simpa using hglob
    have hstep : ReviewGAP cfg [image] [gap]
        = reviewGAPImages cfg [gap] [image] := by
      unfold ReviewGAP
      simp [hmem]
    rw [hstep]
    unfold reviewGAPImages evalGapsForImage
    rw [heval]
    simp [evalGapsForImage, reviewGAPImages]
  · intro cfg' atts image' gap' h
    unfold evalGapForImage
    simp [h]

theorem gap_allowlist_shortcircuit_amended_witness :
    ReviewGAP (testCfg [] true) ["allowed_image_name"] [oneGAP]
        = ([("allowed_image_name", false)], none)
    ∧ evalGapForImage (testCfg [] true) [] vulnImage gapWithoutAA
        = .ok (false, false) :=
  ⟨(gap_allowlist_shortcircuit_amended (testCfg [] true) "allowed_image_name"
      oneGAP (by decide) (by decide) (by decide)).1,
   (gap_allowlist_shortcircuit_amended (testCfg [] true) "allowed_image_name"
      oneGAP (by decide) (by decide) (by decide)).2 (testCfg [] true) []
      vulnImage gapWithoutAA rfl⟩

/-- C7 counterexample: reviewing the allowlisted image `allowed_image_name`
against `oneGAP` records `hasRequiredAtts = false` yet returns no error —
refuting the claim's "in every other case hasRequiredAtts is false and the
review fails". -/
theorem gap_has_required_atts_counterexample :
    ReviewGAP (testCfg [] true) ["allowed_image_name"] [oneGAP]
      = ([("allowed_image_name", false)], none) := by decide

/-- A policy's quorum flag implies its admission flag: quorum is one of the
ways a policy admits an image. -/
theorem evalGapForImage_quorum_implies_admitted
    (cfg : ReviewConfig) (atts : List Attestation) (image : String)
    (gap : GenericAttestationPolicy) (a q : Bool)
    (h : evalGapForImage cfg atts image gap = .ok (a, q)) :
    q = true → a = true := by
  intro hq
  subst hq
  unfold evalGapForImage at h
  by_cases h1 : gap.attestationAuthorityNames.isEmpty
  · simp [h1] at h
  · by_cases h2 : imageAllowlistedByGap cfg image gap
    · simp [h1, h2] at h
    · simp only [h1, h2, Bool.false_eq_true, if_false] at h
      cases hres : getAttestationAuthoritiesForGAP cfg gap with
      | error e => rw [hres] at h; cases h
      | ok auths =>
        rw [hres] at h
        simp only [Except.ok.injEq, Prod.mk.injEq] at h
        rw [← h.1]
        exact h.2

/-- Across all policies, the recorded quorum flag implies admission. -/
theorem evalGapsForImage_quorum_implies_admitted
    (cfg : ReviewConfig) (atts : List Attestation) (image : String) :
    ∀ (gaps : List GenericAttestationPolicy) (a q : Bool),
    evalGapsForImage cfg atts image gaps = .ok (a, q) → q = true → a = true := by
  intro gaps
  induction gaps with
  | nil =>
    intro a q h hq
    subst hq
    simp [evalGapsForImage] at h
  | cons g rest ih =>
    intro a q h hq
    unfold evalGapsForImage at h
    cases h1 : evalGapForImage cfg atts image g with
    | error e => rw [h1] at h; cases h
    | ok p =>
      obtain ⟨a1, q1⟩ := p
      rw [h1] at h
      cases h2 : evalGapsForImage cfg atts image rest with
      | error e => rw [h2] at h; cases h
      | ok p2 =>
        obtain ⟨a2, q2⟩ := p2
        rw [h2] at h
        simp only [Except.ok.injEq, Prod.mk.injEq] at h
        rw [← h.1]
        rw [← h.2] at hq
        rcases Bool.or_eq_true_iff.mp hq with hq1 | hq2
        · rw [evalGapForImage_quorum_implies_admitted cfg atts image g a1 q1 h1 hq1]
          simp
        · rw [ih a2 q2 h2 hq2]
          simp

/-- C7 amended: `hasRequiredAtts` is recorded for each image as the
disjunction of the per-policy quorum flags — true exactly when full quorum
was reached for at least one GAP — and the review fails iff no policy
admitted the image (by quorum or by an allowlist match under a policy with
authorities); since quorum implies admission, a failing review always
records `hasRequiredAtts = false`, but not conversely. -/
theorem gap_has_required_atts_amended
    (cfg : ReviewConfig) (image : String)
    (gaps : List GenericAttestationPolicy) (adm att : Bool)
    (hglob : cfg.globalAllowlist.contains image = false)
    (hgaps : gaps.isEmpty = false)
    (heval : evalGapsForImage cfg (cfg.attestationsFor image) image gaps
      = .ok (adm, att)) :
    ReviewGAP cfg [image] gaps
      = ([(image, att)], if adm then none else some (notAttestedMessage image))
    ∧ (att = true → adm = true) := by
  constructor
  · have hmem : image ∉ cfg.globalAllowlist := by simpa using hglob
    have hstep : ReviewGAP cfg [image] gaps = reviewGAPImages cfg gaps [image] := by
      unfold ReviewGAP
      simp [hmem, hgaps]
    rw [hstep]
    unfold reviewGAPImages
    rw [heval]
    cases adm
    · simp
    · simp [reviewGAPImages]
  · exact evalGapsForImage_quorum_implies_admitted cfg
      (cfg.attestationsFor image) image gaps adm att heval

theorem gap_has_required_atts_amended_witness :
    (ReviewGAP (testCfg [att1] true) [vulnImage] [oneGAP]
      = ([(vulnImage, true)],
         if true then none else some (notAttestedMessage vulnImage)))
    ∧ (true = true → true = true) :=
  gap_has_required_atts_amended (testCfg [att1] true) vulnImage [oneGAP]
    true true (by decide) (by decide) rfl

/-- C3: for an image whose fetched attestations contain at least one that
verifies against the ISP's resolved authority, and whose vulnerability
validation yields a non-empty violation list: in webhook mode the review
passes and records no violations (attestation recorded true), while in
periodic (cron) mode the same violations are recorded and the review
fails. -/
theorem isp_attested_mode_dependence
    (cfg : ReviewConfig) (isp : ImageSecurityPolicy) (image : String)
    (auth : AttestationAuthority) (vs : List Violation)
    (hglob : cfg.globalAllowlist.contains image = false)
    (hauth : cfg.authResolver isp.attestationAuthorityName = .ok auth)
    (hatt : (cfg.attestationsFor image).any (fun att => cfg.verify att auth)
      = true)
    (hval : cfg.validate isp image = .ok vs)
    (hvs : vs.isEmpty = false) :
    ReviewISP { cfg with isWebhook := true } [image] [isp]
        = ⟨[(image, true)], [], [], none⟩
    ∧ ReviewISP { cfg with isWebhook := false } [image] [isp]
        = ⟨[(image, true)], [(image, vs)], [],
            some ("found violations in " ++ image)⟩ := by
  have hmem : image ∉ cfg.globalAllowlist := by simpa using hglob
  constructor
  · have himg : reviewImageISP { cfg with isWebhook := true } isp image
        = ⟨[(image, true)], [], [], none⟩ := by
      unfold reviewImageISP
      simp [hauth, hatt]
    unfold ReviewISP reviewISPPolicies reviewISPImages
    simp [hmem, himg, seqOutcome, reviewISPPolicies, reviewISPImages]
  · have himg : reviewImageISP { cfg with isWebhook := false } isp image
        = ⟨[(image, true)], [(image, vs)], [],
            some ("found violations in " ++ image)⟩ := by
      unfold reviewImageISP
      simp [hauth, hatt, hval, hvs]
    unfold ReviewISP reviewISPPolicies reviewISPImages
    simp [hmem, himg, seqOutcome, reviewISPPolicies, reviewISPImages]

theorem isp_attested_mode_dependence_witness :
    ReviewISP { testCfg [att1] true with isWebhook := true }
        [vulnImage] [testISP]
        = ⟨[(vulnImage, true)], [], [], none⟩
    ∧ ReviewISP { testCfg [att1] true with isWebhook := false }
        [vulnImage] [testISP]
        = ⟨[(vulnImage, true)], [(vulnImage, [vulnViolation])], [],
            some ("found violations in " ++ vulnImage)⟩ :=
  isp_attested_mode_dependence (testCfg [att1] true) testISP vulnImage
    ⟨"test", "projects/test-1/notes/note-1"⟩ [vulnViolation]
    (by decide) rfl (by decide) rfl (by decide)

/-- In periodic (cron) mode a single image review never uploads an
attestation, whatever the collaborators return. -/
theorem reviewImageISP_uploads_cron (cfg : ReviewConfig)
    (isp : ImageSecurityPolicy) (image : String)
    (h : cfg.isWebhook = false) :
    (reviewImageISP cfg isp image).uploads = [] := by
  unfold reviewImageISP
  cases hres : cfg.authResolver isp.attestationAuthorityName with
  | error e => rfl
  | ok auth =>
    simp only [h, Bool.false_and, Bool.false_eq_true, if_false]
    cases hval : cfg.validate isp image with
    | error e => rfl
    | ok vs =>
      cases hvs : vs.isEmpty
      · simp [hvs]
      · simp [hvs]

/-- In periodic (cron) mode the image loop never uploads an attestation. -/
theorem reviewISPImages_uploads_cron (cfg : ReviewConfig)
    (isp : ImageSecurityPolicy) (h : cfg.isWebhook = false) :
    ∀ images : List String, (reviewISPImages cfg isp images).uploads = [] := by
  intro images
  induction images with
  | nil => rfl
  | cons i rest ih =>
    unfold reviewISPImages seqOutcome
    cases he : (reviewImageISP cfg isp i).err
    · simp [he, reviewImageISP_uploads_cron cfg isp i h, ih]
    · simp [he, reviewImageISP_uploads_cron cfg isp i h]

/-- In periodic (cron) mode the policy loop never uploads an attestation. -/
theorem reviewISPPolicies_uploads_cron (cfg : ReviewConfig)
    (images : List String) (h : cfg.isWebhook = false) :
    ∀ isps : List ImageSecurityPolicy,
    (reviewISPPolicies cfg images isps).uploads = [] := by
  intro isps
  induction isps with
  | nil => rfl
  | cons isp rest ih =>
    unfold reviewISPPolicies seqOutcome
    cases he : (reviewISPImages cfg isp images).err
    · simp [he, reviewISPImages_uploads_cron cfg isp h, ih]
    · simp [he, reviewISPImages_uploads_cron cfg isp h]

/-- A single-image, single-ISP review uploads exactly what the per-image
review uploads. -/
theorem ReviewISP_single_uploads (cfg : ReviewConfig) (image : String)
    (isp : ImageSecurityPolicy)
    (hglob : cfg.globalAllowlist.contains image = false) :
    (ReviewISP cfg [image] [isp]).uploads
      = (reviewImageISP cfg isp image).uploads := by
  have hmem : image ∉ cfg.globalAllowlist := by simpa using hglob
  unfold ReviewISP reviewISPPolicies reviewISPImages
  cases he : (reviewImageISP cfg isp image).err
  · simp [hmem, seqOutcome, he, reviewISPPolicies, reviewISPImages]
  · simp [hmem, seqOutcome, he, reviewISPPolicies, reviewISPImages]

/-- C4: a new attestation is created and uploaded exactly when reviewing in
webhook mode an image with no verifying attestation and an empty violation
list (an unqualified image always has a violation, so is never attested);
in periodic (cron) mode no attestation is ever created, for any images,
policies or collaborator behavior. -/
theorem isp_attestation_creation
    (cfg : ReviewConfig) (isp : ImageSecurityPolicy) (image : String)
    (auth : AttestationAuthority) (vs : List Violation)
    (hglob : cfg.globalAllowlist.contains image = false)
    (hauth : cfg.authResolver isp.attestationAuthorityName = .ok auth)
    (hval : cfg.validate isp image = .ok vs) :
    ((ReviewISP { cfg with isWebhook := true } [image] [isp]).uploads
      = if ((cfg.attestationsFor image).any fun att => cfg.verify att auth)
        then []
        else if vs.isEmpty then [image] else [])
    ∧ ∀ (cfg' : ReviewConfig) (images : List String)
        (isps : List ImageSecurityPolicy), cfg'.isWebhook = false →
        (ReviewISP cfg' images isps).uploads = [] := by
  constructor
  · rw [ReviewISP_single_uploads { cfg with isWebhook := true } image isp
      (by simpa using hglob)]
    unfold reviewImageISP
    simp only [hauth]
    cases hatt : (cfg.attestationsFor image).any fun att => cfg.verify att auth
    · simp only [hatt, Bool.and_false, Bool.false_eq_true, if_false]
      simp only [hval]
      cases hvs : vs.isEmpty
      · simp [hvs]
      · simp [hvs]
    · simp [hatt]
  · intro cfg' images isps h
    unfold ReviewISP
    exact reviewISPPolicies_uploads_cron cfg' _ h isps

theorem isp_attestation_creation_witness :
    ((ReviewISP { testCfg [] true with isWebhook := true }
        [noVulnImage] [testISP]).uploads
      = if (((testCfg [] true).attestationsFor noVulnImage).any
            fun att => (testCfg [] true).verify att
              ⟨"test", "projects/test-1/notes/note-1"⟩)
        then []
        else if ([] : List Violation).isEmpty then [noVulnImage] else [])
    ∧ (ReviewISP (testCfg [att1] false) [vulnImage] [testISP]).uploads = [] :=
  ⟨(isp_attestation_creation (testCfg [] true) testISP noVulnImage
      ⟨"test", "projects/test-1/notes/note-1"⟩ []
      (by decide) rfl rfl).1,
   (isp_attestation_creation (testCfg [] true) testISP noVulnImage
      ⟨"test", "projects/test-1/notes/note-1"⟩ []
      (by decide) rfl rfl).2 (testCfg [att1] false) [vulnImage] [testISP] rfl⟩

end Kritis
